import Mathlib

/-!
Verification of the pure decision/classification core of the ROTC Weather
Analysis Dashboard (`Streamlit_Weather.py`): unit conversion, wind chill,
WBGT approximation, heat-category classification, condition interpretation,
uniform recommendation and the final training decision.

Numbers are modelled as exact rationals (`ℚ`). The transcendental
primitives of the source (`math.atan`, `math.sqrt`, the fractional powers
`** 0.16` and `** 1.5`) cannot be expressed in rational arithmetic; they
are abstracted as function parameters, and every theorem below holds for
every interpretation of those parameters. Python `None` becomes `Option`,
and `float("nan")` is modelled by an explicit NaN-extended number type with
IEEE comparison semantics (any comparison involving NaN is false), exactly
as Python evaluates it.
-/

/-- `f_to_c` from the source: `(Tf - 32.0) * 5.0 / 9.0`. -/
def f_to_c (Tf : ℚ) : ℚ :=
  (Tf - 32) * 5 / 9

/-- `c_to_f` from the source: `Tc * 9.0 / 5.0 + 32.0`. -/
def c_to_f (Tc : ℚ) : ℚ :=
  Tc * 9 / 5 + 32

/-- `wind_chill_f` from the source. The fractional power `wind_mph ** 0.16`
is not rational-valued, so it is abstracted as the parameter `pow16`; the
applicability gate and the shape of the returned polynomial do not depend
on its value. `None` (not applicable) becomes `none`. -/
def wind_chill_f (pow16 : ℚ → ℚ) (Tf wind_mph : ℚ) : Option ℚ :=
  if Tf > 50 ∨ wind_mph ≤ 3 then none
  else some (35.74 + 0.6215 * Tf - 35.75 * pow16 wind_mph +
    0.4275 * Tf * pow16 wind_mph)

/-- Transcendental primitives used by the WBGT estimator: `math.atan`,
`math.sqrt` and `x ** 1.5`, abstracted since they are not rational-valued.
The clamping property proved below holds for every interpretation. -/
structure WbgtPrims where
  atan : ℚ → ℚ
  sqrt : ℚ → ℚ
  powThreeHalves : ℚ → ℚ

/-- `approx_natural_wet_bulb` from the source: clamps the relative humidity
to `[0, 100]` and applies the Stull-style approximation. -/
def approx_natural_wet_bulb (P : WbgtPrims) (Tc rh : ℚ) : ℚ :=
  let rhc := max 0 (min 100 rh)
  Tc * P.atan (0.151977 * P.sqrt (rhc + 8.313659)) +
    P.atan (Tc + rhc) - P.atan (rhc - 1.676331) +
    0.00391838 * P.powThreeHalves rhc * P.atan (0.023101 * rhc) -
    4.686035

/-- `approx_wbgt` from the source: returns `(wbgt_c, Tw, Tg)`. -/
def approx_wbgt (P : WbgtPrims) (Tc rh : ℚ) (sunny : Bool)
    (globe_offset_c : ℚ) : ℚ × ℚ × ℚ :=
  let Tw := approx_natural_wet_bulb P Tc rh
  let Tg := if sunny then Tc + globe_offset_c else Tc
  (0.7 * Tw + 0.3 * Tg, Tw, Tg)

/-- `heat_category_from_wbgt_f` from the source, translated literally with
its decimal band bounds (`78 <= x <= 81.9`, `82 <= x <= 84.9`, ...). -/
def heat_category_from_wbgt_f (wbgt_f : ℚ) : String × ℤ :=
  if wbgt_f < 78 then ("Below White", 1)
  else if 78 ≤ wbgt_f ∧ wbgt_f ≤ 81.9 then ("White (Cat 1)", 1)
  else if 82 ≤ wbgt_f ∧ wbgt_f ≤ 84.9 then ("Green (Cat 2)", 2)
  else if 85 ≤ wbgt_f ∧ wbgt_f ≤ 87.9 then ("Yellow (Cat 3)", 3)
  else if 88 ≤ wbgt_f ∧ wbgt_f ≤ 89.9 then ("Red (Cat 4)", 4)
  else ("Black (Cat 5)", 5)

/-- A float that is either a rational value or NaN, with the IEEE
comparison semantics the Python source relies on. -/
inductive FloatQ where
  | nan : FloatQ
  | val : ℚ → FloatQ
deriving DecidableEq

/-- IEEE `<`: any comparison involving NaN is false. -/
def FloatQ.lt : FloatQ → FloatQ → Bool
  | .val a, .val b => decide (a < b)
  | _, _ => false

/-- IEEE `≤`: any comparison involving NaN is false. -/
def FloatQ.le : FloatQ → FloatQ → Bool
  | .val a, .val b => decide (a ≤ b)
  | _, _ => false

/-- `heat_category_from_wbgt_f` over NaN-extended inputs: the same chained
comparisons as the source, evaluated with IEEE comparison semantics. -/
def heat_category_from_wbgt_float (wbgt_f : FloatQ) : String × ℤ :=
  if FloatQ.lt wbgt_f (.val 78) then ("Below White", 1)
  else if FloatQ.le (.val 78) wbgt_f && FloatQ.le wbgt_f (.val 81.9) then
    ("White (Cat 1)", 1)
  else if FloatQ.le (.val 82) wbgt_f && FloatQ.le wbgt_f (.val 84.9) then
    ("Green (Cat 2)", 2)
  else if FloatQ.le (.val 85) wbgt_f && FloatQ.le wbgt_f (.val 87.9) then
    ("Yellow (Cat 3)", 3)
  else if FloatQ.le (.val 88) wbgt_f && FloatQ.le wbgt_f (.val 89.9) then
    ("Red (Cat 4)", 4)
  else ("Black (Cat 5)", 5)

/-- Python `str.lower()` on the ASCII condition strings: lower-cases every
character. Extensionally `String.toLower`, but written by structural
recursion over the character list so concrete inputs reduce in the
kernel. -/
def pyLower (s : String) : String :=
  String.mk (s.data.map Char.toLower)

/-- Case-insensitive substring test, modelling Python `needle in hay` after
both sides are already lower-cased. -/
def strContains (hay needle : String) : Bool :=
  hay.toList.tails.any fun t => needle.toList.isPrefixOf t

/-- `interpret_condition` from the source: ordered first-match-wins rule
list over the lower-cased condition text, returning
`(severity, note, override)`. `cond_text or ""` becomes `Option.getD`. -/
def interpret_condition (cond_text : Option String) : String × String × Option String :=
  let c := pyLower (cond_text.getD "")
  if strContains c "thunder" || strContains c "storm" then
    ("extreme", "Thunderstorm / lightning risk", some "NO OUTDOOR TRAINING")
  else if strContains c "freezing rain" ||
      (strContains c "freezing" && strContains c "rain") then
    ("extreme", "Freezing rain / ice risk", some "NO OUTDOOR TRAINING")
  else if strContains c "sleet" || strContains c "ice" || strContains c "icy" then
    ("extreme", "Icy conditions", some "NO OUTDOOR TRAINING")
  else if strContains c "blizzard" then
    ("extreme", "Blizzard / near-zero visibility", some "NO OUTDOOR_TRAINING")
  else if strContains c "heavy snow" then
    ("high", "Heavy snow — visibility & slip risk", none)
  else if strContains c "snow" || strContains c "flurr" then
    ("moderate", "Snow present — traction/visibility caution", none)
  else if strContains c "heavy rain" || strContains c "torrential" then
    ("high", "Heavy rain — hypothermia & slip risk", none)
  else if strContains c "rain" || strContains c "shower" then
    ("moderate", "Rain — wet/hypothermia risk", none)
  else if strContains c "drizzle" || strContains c "light rain" then
    ("low", "Light rain / drizzle", none)
  else if strContains c "fog" || strContains c "mist" then
    ("moderate", "Fog / reduced visibility", none)
  else
    ("low", "No precipitation hazards", none)

/-- `recommend_uniform_option_a` from the source. `precip_level` is in the
Python signature (default `"low"`) but never read by the body. -/
def recommend_uniform_option_a (temp_f : ℚ) (wind_chill : Option ℚ)
    (heat_cat_num : Option ℤ) (wbgt_applicable : Bool)
    (precip_level : String) : String × ℤ :=
  match wbgt_applicable, heat_cat_num with
  | true, some n =>
    if n ≥ 5 then
      ("Light clothing only; no armor; full hydration and move indoors", 3)
    else if n = 4 then
      ("Light OCP/PT, reduce load, hydrate frequently", 2)
    else if n = 3 then
      ("OCP, consider modified load and frequent water breaks", 1)
    else
      ("Standard OCP/PT uniform", 0)
  | _, _ =>
    let fallback : String × ℤ :=
      if temp_f ≤ 50 ∧ temp_f > 33 then
        ("OCP + fleece optional; monitor wind and wetness.", 1)
      else
        ("Standard OCP/PT uniform", 0)
    match wind_chill with
    | some w =>
      if w ≤ -20 then
        ("Arctic clothing / extreme cold gear. No exposed skin. No outdoor training.", 3)
      else if w ≤ 0 then
        ("Parka + layered clothing + gloves + balaclava. Move indoors for prolonged training.", 2)
      else if w ≤ 20 then
        ("OCP + parka + gloves + warm layers. Limit prolonged exposed activities.", 2)
      else if w ≤ 32 then
        ("OCP + fleece + gloves recommended.", 1)
      else fallback
    | none => fallback

/-- `recommend_pt_uniform` from the source. An input that `float(...)`
cannot parse is modelled as `none` and hits the defensive default. -/
def recommend_pt_uniform (temp_f : Option ℚ) : String :=
  match temp_f with
  | none => "Standard PT uniform"
  | some t =>
    if t > 80 then "APFU Short-sleeve + shorts"
    else if 60 ≤ t ∧ t ≤ 80 then "APFU Short-sleeve shirt + APFU shorts"
    else if 40 ≤ t ∧ t ≤ 59 then
      "APFU Short-sleeve + APFU Long-sleeve + APFU shorts"
    else if 20 ≤ t ∧ t ≤ 39 then
      "APFU Short-sleeve + APFU Long-sleeve + APFU Pants + APFU Jacket + Fleece Cap"
    else
      "APFU Short-sleeve + APFU Long-sleeve + APFU Pants + APFU Jacket + Fleece Cap + Gloves"

/-- Python truthiness of an optional string: `if precip_override:` is true
exactly when the value is present and non-empty. -/
def truthy : Option String → Bool
  | none => false
  | some s => !(s == "")

/-- Wind-chill guard of the source: `wind_chill_f is not None and
wind_chill_f <= b`. -/
def optLe (o : Option ℚ) (b : ℚ) : Bool :=
  match o with
  | some v => decide (v ≤ b)
  | none => false

/-- `final_training_decision` from the source: strict first-match priority
order (override, then the three cold bands, then high precipitation, then
the heat bands, then the default). -/
def final_training_decision (temp_f : ℚ) (wind_chill : Option ℚ)
    (heat_cat_num : Option ℤ) (wbgt_applicable : Bool)
    (precip_override : Option String) (precip_level : String) : String :=
  if truthy precip_override then precip_override.getD ""
  else if optLe wind_chill (-20) then "NO OUTDOOR TRAINING — EXTREME COLD"
  else if optLe wind_chill 0 then "MOVE TRAINING INDOORS / HIGH COLD RISK"
  else if optLe wind_chill 20 then
    "LIMIT OUTDOOR TRAINING / USE INDOORS WHEN POSSIBLE (COLD CAUTION)"
  else if precip_level == "high" then
    "LIMIT OUTDOOR TRAINING / USE INDOORS WHEN POSSIBLE (PRECIPITATION)"
  else
    match wbgt_applicable, heat_cat_num with
    | true, some n =>
      if n ≥ 5 then "NO OUTDOOR TRAINING — EXTREME HEAT (BLACK FLAG)"
      else if n = 4 then
        "LIMIT OUTDOOR TRAINING / USE INDOORS WHEN POSSIBLE (HEAT)"
      else if n = 3 then "TRAIN OUTDOORS WITH CAUTION (HEAT)"
      else "TRAIN OUTDOORS (NO RESTRICTIONS)"
    | _, _ => "TRAIN OUTDOORS (NO RESTRICTIONS)"

/-- C9: the Fahrenheit/Celsius conversions are exact inverses: for every
rational `x`, `f_to_c (c_to_f x) = x` and `c_to_f (f_to_c x) = x`. -/
theorem temp_conversion_roundtrip (x : ℚ) :
    f_to_c (c_to_f x) = x ∧ c_to_f (f_to_c x) = x := by
  unfold f_to_c c_to_f
  constructor <;> ring

/-- C10: `recommend_uniform_option_a` never consults its `precip_level`
argument: for every fixed temperature, wind chill, heat category and
applicability flag, any two precipitation levels yield the same result. -/
theorem recommend_uniform_ignores_precip (temp_f : ℚ)
    (wind_chill : Option ℚ) (heat_cat_num : Option ℤ)
    (wbgt_applicable : Bool) (p1 p2 : String) :
    recommend_uniform_option_a temp_f wind_chill heat_cat_num
        wbgt_applicable p1 =
      recommend_uniform_option_a temp_f wind_chill heat_cat_num
        wbgt_applicable p2 := rfl

/-- C7: the WBGT estimator clamps out-of-range humidity instead of
rejecting it: its result at `rh` equals its result at
`max 0 (min 100 rh)`, for every interpretation of the transcendental
primitives and all other arguments. -/
theorem approx_wbgt_clamps_humidity (P : WbgtPrims) (Tc rh : ℚ)
    (sunny : Bool) (globe_offset_c : ℚ) :
    approx_wbgt P Tc rh sunny globe_offset_c =
      approx_wbgt P Tc (max 0 (min 100 rh)) sunny globe_offset_c := by
  have hle : max 0 (min 100 rh) ≤ 100 :=
    max_le (by norm_num) (min_le_left _ _)
  have hmin : min 100 (max 0 (min 100 rh)) = max 0 (min 100 rh) :=
    min_eq_right hle
  have hmax : max 0 (max 0 (min 100 rh)) = max 0 (min 100 rh) :=
    max_eq_right (le_max_left _ _)
  unfold approx_wbgt approx_natural_wet_bulb
  rw [hmin, hmax]

/-- C8: the PT-uniform recommendation returns the documented default
`"Standard PT uniform"` on unparseable input and one of the five fixed
band strings on every numeric input. -/
theorem recommend_pt_uniform_total :
    recommend_pt_uniform none = "Standard PT uniform" ∧
    ∀ t : ℚ,
      recommend_pt_uniform (some t) = "APFU Short-sleeve + shorts" ∨
      recommend_pt_uniform (some t) = "APFU Short-sleeve shirt + APFU shorts" ∨
      recommend_pt_uniform (some t) =
        "APFU Short-sleeve + APFU Long-sleeve + APFU shorts" ∨
      recommend_pt_uniform (some t) =
        "APFU Short-sleeve + APFU Long-sleeve + APFU Pants + APFU Jacket + Fleece Cap" ∨
      recommend_pt_uniform (some t) =
        "APFU Short-sleeve + APFU Long-sleeve + APFU Pants + APFU Jacket + Fleece Cap + Gloves" := by
  refine ⟨rfl, fun t => ?_⟩
  simp only [recommend_pt_uniform]
  split_ifs <;> simp

/-- C4: the wind chill estimator returns the closed-form polynomial
whenever `T ≤ 50` and `V > 3`, and is absent (`none`) whenever `T > 50` or
`V ≤ 3`, for every interpretation of the fractional power. -/
theorem wind_chill_f_spec (pow16 : ℚ → ℚ) (Tf V : ℚ) :
    (Tf ≤ 50 → V > 3 → wind_chill_f pow16 Tf V =
      some (35.74 + 0.6215 * Tf - 35.75 * pow16 V + 0.4275 * Tf * pow16 V)) ∧
    (Tf > 50 ∨ V ≤ 3 → wind_chill_f pow16 Tf V = none) := by
  constructor
  · intro h1 h2
    have hn : ¬(Tf > 50 ∨ V ≤ 3) := by push_neg; exact ⟨h1, h2⟩
    rw [wind_chill_f, if_neg hn]
  · intro h
    rw [wind_chill_f, if_pos h]

/-- Witness for C4: at `T = 40, V = 10` the value is present and equals
the polynomial; at `T = 60, V = 10` it is absent. -/
theorem wind_chill_f_spec_witness :
    wind_chill_f (fun v => v) 40 10 =
      some (35.74 + 0.6215 * 40 - 35.75 * 10 + 0.4275 * 40 * 10) ∧
    wind_chill_f (fun v => v) 60 10 = none :=
  ⟨(wind_chill_f_spec (fun v => v) 40 10).1 (by norm_num) (by norm_num),
   (wind_chill_f_spec (fun v => v) 60 10).2 (Or.inl (by norm_num))⟩

/-- C3 (code evaluation): `82.0` does map to Green, but the gap value
`81.95` — strictly between White's inclusive upper bound `81.9` and
Green's lower bound `82` — falls through every band check and returns
Black (Cat 5), not the White category required by the half-open table. -/
theorem heat_category_gap_value_eval :
    heat_category_from_wbgt_f 82 = ("Green (Cat 2)", 2) ∧
    heat_category_from_wbgt_f 81.95 = ("Black (Cat 5)", 5) := by
  constructor <;> norm_num [heat_category_from_wbgt_f]

/-- C6 (code evaluation): on a NaN input every band comparison is false,
so the classifier silently returns Black (Cat 5) instead of failing. -/
theorem heat_category_nan_eval :
    heat_category_from_wbgt_float FloatQ.nan = ("Black (Cat 5)", 5) := rfl

/-- C5 (code evaluation): `"Blizzard"` matches no earlier rule and yields
severity `extreme` with note `Blizzard / near-zero visibility`, but the
override literal is `"NO OUTDOOR_TRAINING"` (with an underscore), not the
`"NO OUTDOOR TRAINING"` string used by the other extreme rules. -/
theorem interpret_condition_blizzard_eval :
    interpret_condition (some "Blizzard") =
      ("extreme", "Blizzard / near-zero visibility",
        some "NO OUTDOOR_TRAINING") := by decide

/-- C2: any condition text containing `"thunder"` or `"storm"` after
lower-casing yields severity `"extreme"`, the thunderstorm note and the
override `"NO OUTDOOR TRAINING"`; and with that override passed alongside,
the final training decision equals the override string verbatim for every
combination of temperature, wind chill, heat severity, applicability flag
and precipitation level. -/
theorem interpret_condition_thunderstorm_override (s : String)
    (h : strContains (pyLower s) "thunder" = true ∨
      strContains (pyLower s) "storm" = true) :
    interpret_condition (some s) =
      ("extreme", "Thunderstorm / lightning risk",
        some "NO OUTDOOR TRAINING") ∧
    ∀ (temp_f : ℚ) (wind_chill : Option ℚ) (heat_cat_num : Option ℤ)
      (wbgt_applicable : Bool) (precip_level : String),
      final_training_decision temp_f wind_chill heat_cat_num
        wbgt_applicable (some "NO OUTDOOR TRAINING") precip_level =
        "NO OUTDOOR TRAINING" := by
  constructor
  · rcases h with h | h <;> simp [interpret_condition, Option.getD, h]
  · intro temp_f wind_chill heat_cat_num wbgt_applicable precip_level
    rfl

/-- Witness for C2 at the spec's example text
`"Severe Thunderstorms Expected"` and one concrete argument
combination. -/
theorem interpret_condition_thunderstorm_override_witness :
    interpret_condition (some "Severe Thunderstorms Expected") =
      ("extreme", "Thunderstorm / lightning risk",
        some "NO OUTDOOR TRAINING") ∧
    final_training_decision 95 (some 40) (some 5) true
      (some "NO OUTDOOR TRAINING") "high" = "NO OUTDOOR TRAINING" := by
  have h := interpret_condition_thunderstorm_override
    "Severe Thunderstorms Expected" (Or.inl (by decide))
  exact ⟨h.1, h.2 95 (some 40) (some 5) true "high"⟩

/-- C1: priority order of `final_training_decision` — a truthy
precipitation override is returned verbatim before anything else; absent
an override, wind chill ≤ −20 gives the extreme-cold decision regardless
of heat severity (even 5 / Black) and precipitation level; the other two
cold bands likewise fire before the precipitation and heat rules; and
when no cold rule fires the high-precipitation rule precedes every heat
rule. -/
theorem final_training_decision_priority_order (temp_f : ℚ)
    (heat_cat_num : Option ℤ) (wbgt_applicable : Bool)
    (precip_level : String) :
    (∀ s : String, s ≠ "" → ∀ wind_chill : Option ℚ,
      final_training_decision temp_f wind_chill heat_cat_num
        wbgt_applicable (some s) precip_level = s) ∧
    (∀ w : ℚ, w ≤ -20 →
      final_training_decision temp_f (some w) heat_cat_num
        wbgt_applicable none precip_level =
        "NO OUTDOOR TRAINING — EXTREME COLD") ∧
    (∀ w : ℚ, -20 < w → w ≤ 0 →
      final_training_decision temp_f (some w) heat_cat_num
        wbgt_applicable none precip_level =
        "MOVE TRAINING INDOORS / HIGH COLD RISK") ∧
    (∀ w : ℚ, 0 < w → w ≤ 20 →
      final_training_decision temp_f (some w) heat_cat_num
        wbgt_applicable none precip_level =
        "LIMIT OUTDOOR TRAINING / USE INDOORS WHEN POSSIBLE (COLD CAUTION)") ∧
    (∀ w : ℚ, 20 < w →
      final_training_decision temp_f (some w) heat_cat_num
        wbgt_applicable none "high" =
        "LIMIT OUTDOOR TRAINING / USE INDOORS WHEN POSSIBLE (PRECIPITATION)") ∧
    final_training_decision temp_f none heat_cat_num wbgt_applicable
      none "high" =
      "LIMIT OUTDOOR TRAINING / USE INDOORS WHEN POSSIBLE (PRECIPITATION)" := by
  refine ⟨?_, ?_, ?_, ?_, ?_, ?_⟩
  · intro s hs wind_chill
    simp [final_training_decision, truthy, Option.getD, hs]
  · intro w hw
    simp [final_training_decision, truthy, optLe, hw]
  · intro w h1 h2
    have h1n : ¬w ≤ -20 := by linarith
    simp [final_training_decision, truthy, optLe, h1n, h2]
  · intro w h1 h2
    have h1n : ¬w ≤ -20 := by linarith
    have h2n : ¬w ≤ 0 := by linarith
    simp [final_training_decision, truthy, optLe, h1n, h2n, h2]
  · intro w h1
    have h1n : ¬w ≤ -20 := by linarith
    have h2n : ¬w ≤ 0 := by linarith
    have h3n : ¬w ≤ 20 := by linarith
    simp [final_training_decision, truthy, optLe, h1n, h2n, h3n]
  · simp [final_training_decision, truthy, optLe]

/-- Witness for C1: concrete evaluations with heat severity 5 (Black),
`wbgt_applicable = true` and precipitation level `"high"` throughout. -/
theorem final_training_decision_priority_order_witness :
    final_training_decision 95 (some (-30)) (some 5) true
      (some "NO OUTDOOR TRAINING") "high" = "NO OUTDOOR TRAINING" ∧
    final_training_decision 95 (some (-30)) (some 5) true none "high" =
      "NO OUTDOOR TRAINING — EXTREME COLD" ∧
    final_training_decision 95 (some (-10)) (some 5) true none "high" =
      "MOVE TRAINING INDOORS / HIGH COLD RISK" ∧
    final_training_decision 95 (some 10) (some 5) true none "high" =
      "LIMIT OUTDOOR TRAINING / USE INDOORS WHEN POSSIBLE (COLD CAUTION)" ∧
    final_training_decision 95 (some 25) (some 5) true none "high" =
      "LIMIT OUTDOOR TRAINING / USE INDOORS WHEN POSSIBLE (PRECIPITATION)" ∧
    final_training_decision 95 none (some 5) true none "high" =
      "LIMIT OUTDOOR TRAINING / USE INDOORS WHEN POSSIBLE (PRECIPITATION)" := by
  have h := final_training_decision_priority_order 95 (some 5) true "high"
  exact ⟨h.1 "NO OUTDOOR TRAINING" (by decide) (some (-30)),
    h.2.1 (-30) (by norm_num),
    h.2.2.1 (-10) (by norm_num) (by norm_num),
    h.2.2.2.1 10 (by norm_num) (by norm_num),
    h.2.2.2.2.1 25 (by norm_num),
    h.2.2.2.2.2⟩
